import Mathlib

/-
Verification of the Chankura exchange-connector gateway (tribeca).

Shallow embedding of the most complete gateway variant
(src/unnamed/part_002): the signed HTTP transport (nonce management,
stale-nonce retry, signature payload construction), the market-data
poller (order-book and trade-tape conversion, since-cursor), and the
order-entry gateway (submit/cancel emission, reconciliation loop,
venue order-state mapping).

Modelling conventions:
* Venue decimal strings are parsed into exact rationals (`parseDecimal`
  models JavaScript `parseFloat` on the plain decimal strings the venue
  returns); wall-clock instants are naturals supplied as parameters.
* Network effects are oracles: a poll handler takes the response
  (`Except` for reject/resolve) and returns the successor state
  together with the list of events emitted, in emission order.
  Q promise `then`-callbacks run strictly after the synchronous rest of
  the calling function, so an update triggered synchronously after the
  request is issued precedes the update triggered on resolution.
* `moment(created_at).toDate()` is an uninterpreted time parser passed
  as a parameter (no claim depends on its value).
-/

namespace Tribeca

/-- Numeric value of a decimal digit character. -/
def digitVal (c : Char) : Nat := c.toNat - 48

/-- Value of a list of decimal digit characters, most significant first. -/
def digitsVal (l : List Char) : Nat := l.foldl (fun a c => 10 * a + digitVal c) 0

/-- Unsigned decimal-string value: integer part, optional dot, fractional part. -/
def parseUnsigned (l : List Char) : ℚ :=
  let intPart := l.takeWhile (fun c => !(c == '.'))
  let fracPart := (l.dropWhile (fun c => !(c == '.'))).drop 1
  (digitsVal intPart : ℚ) + (digitsVal fracPart : ℚ) / ((10 : ℚ) ^ fracPart.length)

/-- Model of JavaScript parseFloat on the venue's plain decimal strings
(optional leading minus, digits, optional fraction). -/
def parseDecimal (s : String) : ℚ :=
  match s.data with
  | '-' :: rest => -(parseUnsigned rest)
  | rest => parseUnsigned rest

/-- Does the list start with the given pattern. -/
def listStarts : List Char → List Char → Bool
  | _, [] => true
  | [], _ :: _ => false
  | c :: cs, p :: ps => c == p && listStarts cs ps

/-- Substring test on character lists: model of JavaScript
`s.indexOf(pat) > -1`. -/
def containsSub : List Char → List Char → Bool
  | [], pat => pat.isEmpty
  | c :: tl, pat => listStarts (c :: tl) pat || containsSub tl pat

/-- Models.Side (common/models.ts is not under src/; members as named by
the spec data model, section 3: Bid, Ask, Unknown). -/
inductive Side where
  | Bid
  | Ask
  | Unknown
deriving DecidableEq

/-- Models.OrderStatus (common/models.ts is not under src/; members as
named by the spec data model, section 3). -/
inductive OrderStatus where
  | Working
  | Rejected
  | Cancelled
  | Complete
  | Other
deriving DecidableEq

/-- Modelled from the spec: common/models.ts (Models.TimeInForce) is not
under src/. The spec's OrderIntent carries a timeInForce field;
encodeTimeInForce in src/unnamed/part_002 names the supported members
FOK and GTC and reaches its unsupported-combination error path for any
other member; IOC is tribeca's canonical remaining time-in-force value,
whose existence that error path presupposes. -/
inductive TimeInForce where
  | IOC
  | FOK
  | GTC
deriving DecidableEq

/-- Modelled from the spec: common/models.ts (Models.OrderType) is not
under src/. encodeTimeInForce in src/unnamed/part_002 branches on the
two members it references, Market and Limit. -/
inductive OrderType where
  | Limit
  | Market
deriving DecidableEq

/-- Printed name of a TimeInForce member (JS `Models.TimeInForce[tif]`). -/
def timeInForceName : TimeInForce → String
  | .IOC => "IOC"
  | .FOK => "FOK"
  | .GTC => "GTC"

/-- Printed name of an OrderType member (JS `Models.OrderType[type]`). -/
def orderTypeName : OrderType → String
  | .Limit => "Limit"
  | .Market => "Market"

/-- Models.MarketSide: one canonical resting liquidity level. -/
structure MarketSide where
  price : ℚ
  size : ℚ
deriving DecidableEq

/-- Models.Market: a full-replace canonical order-book snapshot. -/
structure Market where
  bids : List MarketSide
  asks : List MarketSide
  time : ℕ
deriving DecidableEq

/-- Models.GatewayMarketTrade; the fourth constructor argument in the
source (`this._since === null`) is the spec's isFirstObservedBatch. -/
structure GatewayMarketTrade where
  price : ℚ
  size : ℚ
  time : ℕ
  isFirstObservedBatch : Bool
  side : Side
deriving DecidableEq

/-- Models.Timestamped: response data tagged with receipt time
(`new Date()` taken in doRequest when the body is parsed). -/
structure Timestamped (α : Type) where
  data : α
  time : ℕ
deriving DecidableEq

/-- Venue order-book level (decimal strings as returned). -/
structure ChankuraMarketLevel where
  price : String
  volume : String
deriving DecidableEq

/-- Venue order-book response shape. -/
structure ChankuraOrderBook where
  bids : List ChankuraMarketLevel
  asks : List ChankuraMarketLevel
deriving DecidableEq

/-- Venue public-trade item (part_002 interface ChankuraMarketTrade). -/
structure ChankuraMarketTrade where
  id : String
  price : String
  volume : String
  market : String
  created_at : String
  side : String
deriving DecidableEq

/-- Venue my-trades item (interface ChankuraMyTradesResponse). -/
structure ChankuraMyTradesResponse where
  id : String
  price : String
  volume : String
  market : String
  created_at : String
  side : String
deriving DecidableEq

/-- Venue order-detail response (interface ChankuraOrderStatusResponse);
trades sublist omitted, the gateway never reads it. -/
structure ChankuraOrderStatusResponse where
  id : String
  side : String
  price : String
  avg_price : String
  state : String
  market : String
  created_at : String
  volume : String
  remaining_volume : String
  executed_volume : String
deriving DecidableEq

/-- Venue create-order request; the source stringifies the numbers
(`order.quantity.toString()`), kept here as exact rationals. -/
structure ChankuraNewOrderRequest where
  market : String
  ord_type : String
  price : ℚ
  side : String
  volume : ℚ
deriving DecidableEq

/-- Venue create-order response; `message` is present exactly on
rejection (JS `typeof resp.data.message !== "undefined"`). -/
structure ChankuraNewOrderResponse where
  id : String
  message : Option String
deriving DecidableEq

/-- Venue delete-order request; the source passes `cancel.exchangeId`,
which may be absent. -/
structure ChankuraDeleteOrderRequest where
  id : Option String
deriving DecidableEq

/-- Venue delete-order response. -/
structure ChankuraDeleteOrderResponse where
  message : Option String
deriving DecidableEq

/-- My-trades poll request (interface ChankuraMyTradesRequest). -/
structure ChankuraMyTradesRequest where
  market : String
  timestamp : ℕ
deriving DecidableEq

/-- ConvertToMarketSide: parse one venue level. -/
def ConvertToMarketSide (level : ChankuraMarketLevel) : MarketSide :=
  { price := parseDecimal level.price, size := parseDecimal level.volume }

/-- ConvertToMarketSides: parse a venue side, preserving order. -/
def ConvertToMarketSides (levels : List ChankuraMarketLevel) : List MarketSide :=
  levels.map ConvertToMarketSide

/-- encodeSide. -/
def encodeSide : Side → String
  | .Bid => "buy"
  | .Ask => "sell"
  | .Unknown => ""

/-- decodeSide. -/
def decodeSide (side : String) : Side :=
  if side = "buy" then .Bid
  else if side = "sell" then .Ask
  else .Unknown

/-- encodeTimeInForce; the source throws for unsupported combinations,
modelled as `Except.error` with the thrown message. -/
def encodeTimeInForce (tif : TimeInForce) (type : OrderType) : Except String String :=
  if type = OrderType.Market then .ok "exchange market"
  else if type = OrderType.Limit then
    if tif = TimeInForce.FOK then .ok "exchange fill-or-kill"
    else if tif = TimeInForce.GTC then .ok "exchange limit"
    else .error ("unsupported tif " ++ timeInForceName tif ++ " and order type " ++ orderTypeName type)
  else .error ("unsupported tif " ++ timeInForceName tif ++ " and order type " ++ orderTypeName type)

/-- ChankuraOrderEntryGateway._getOrderStatus: map the venue order state
string to a canonical OrderStatus. -/
def getOrderStatus (r : ChankuraOrderStatusResponse) : OrderStatus :=
  match r.state with
  | "wait" => .Working
  | "cancel" => .Cancelled
  | "done" => .Complete
  | _ => .Other

/-
Signed transport (class ChankuraHttp, src/unnamed/part_002 lines
368-451).  The HMAC-SHA256 digest is an uninterpreted parameter
`hmac secret payload`; the transport state carries the configuration
strings and the mutable nonce.
-/

/-- Configuration strings read by the ChankuraHttp constructor. -/
structure ChankuraConfig where
  url : String
  key : String
  secret : String

/-- Mutable state of ChankuraHttp: configuration plus the nonce. -/
structure HttpState where
  baseUrl : String
  apiKey : String
  secret : String
  nonce : ℕ
deriving DecidableEq

/-- ChankuraHttp constructor: copies the configuration and seeds the
nonce from the wall clock (`new Date().valueOf()`), supplied here as
`clock`. -/
def mkChankuraHttp (config : ChankuraConfig) (clock : ℕ) : HttpState :=
  { baseUrl := config.url, apiKey := config.key, secret := config.secret, nonce := clock }

/-- One dispatched signed HTTP call: the inputs it carried and the
strings `_postOnce` built from them. -/
structure SignedCall where
  method : String
  actionUrl : String
  query : String
  usedNonce : ℕ
  payload : String
  url : String
deriving DecidableEq

/-- ChankuraHttp._postOnce: build the access-key/tonce parameter string,
the signature payload `method|api/v2<actionUrl>|<params><query>`, sign
it, append `'&signature' + digest` to the URL, and advance the nonce by
one.  `query` is `querystring.stringify(msg)`. -/
def postOnce (hmac : String → String → String) (st : HttpState)
    (method actionUrl query : String) : SignedCall × HttpState :=
  let params := "access_key=" ++ st.apiKey ++ "&tonce=" ++ toString st.nonce ++ "&"
  let payload := method ++ "|api/v2" ++ actionUrl ++ "|" ++ params ++ query
  let signature := hmac st.secret payload
  let url := st.baseUrl ++ "/" ++ actionUrl ++ "?" ++ params ++ query ++ "&signature" ++ signature
  ({ method := method, actionUrl := actionUrl, query := query,
     usedNonce := st.nonce, payload := payload, url := url },
   { st with nonce := st.nonce + 1 })

/-- Venue response body as inspected by ChankuraHttp.post: only the
optional `message` field matters for the retry decision. -/
structure VenueResponse where
  message : Option String
deriving DecidableEq

/-- The stale-nonce test of ChankuraHttp.post:
`typeof rejectMsg !== "undefined" && rejectMsg.indexOf("Nonce is too small") > -1`. -/
def staleNonce (r : VenueResponse) : Bool :=
  match r.message with
  | none => false
  | some s => containsSub s.data ("Nonce is too small").data

/-- ChankuraHttp.post: dispatch via _postOnce and recurse on a
stale-nonce response with the same logical request (`_.clone(msg)`).
The venue is an oracle list giving the response to each successive
attempt; `none` means the oracle was exhausted while the transport was
still retrying (the source would keep retrying indefinitely).  Returns
the calls dispatched in order, the response finally returned to the
caller, and the final transport state. -/
def post (hmac : String → String → String) (st : HttpState)
    (method actionUrl query : String) :
    List VenueResponse → Option (List SignedCall × VenueResponse × HttpState)
  | [] => none
  | r :: rs =>
    let c := postOnce hmac st method actionUrl query
    if staleNonce r then
      match post hmac c.2 method actionUrl query rs with
      | none => none
      | some (cs, final, st2) => some (c.1 :: cs, final, st2)
    else
      some ([c.1], r, c.2)

/-- A sequence of signed request attempts (method, actionUrl, query)
issued through _postOnce on one transport, in order. -/
def runAttempts (hmac : String → String → String) (st : HttpState) :
    List (String × String × String) → List SignedCall × HttpState
  | [] => ([], st)
  | (m, a, q) :: rest =>
    let c := postOnce hmac st m a q
    let r := runAttempts hmac c.2 rest
    (c.1 :: r.1, r.2)

/-
Market-data gateway (class ChankuraMarketDataGateway, lines 172-239).
-/

/-- Mutable state of ChankuraMarketDataGateway: the trade since-cursor
(`private _since: number = null`). -/
structure MDState where
  since : Option ℕ
deriving DecidableEq

/-- Initial market-data state: the cursor is unset. -/
def MDState.init : MDState := { since := none }

/-- ChankuraMarketDataGateway.onTrades: convert and emit every trade of
the batch, tagging each with `this._since === null` (read before the
cursor assignment that follows the loop), then set the cursor to the
wall clock at processing time.  `parseTime` models
`moment(created_at).toDate()`. -/
def onTrades (parseTime : String → ℕ) (st : MDState)
    (trades : List ChankuraMarketTrade) (now : ℕ) :
    MDState × List GatewayMarketTrade :=
  ({ since := some now },
   trades.map fun trade =>
     { price := parseDecimal trade.price
       size := parseDecimal trade.volume
       time := parseTime trade.created_at
       isFirstObservedBatch := st.since.isNone
       side := decodeSide trade.side })

/-- The `timestamp` query parameter downloadMarketTrades sends: the
cursor if set, else `now - 60` seconds (the cold-start lookback). -/
def marketTradesQuery (st : MDState) (now : ℕ) : ℕ :=
  match st.since with
  | none => now - 60
  | some s => s

/-- One trade-poll tick: on a resolved response the batch is handed to
onTrades; on a rejected request the `.then(this.onTrades)` handler never
runs, so no event is emitted and the state is untouched. -/
def marketTradesTick (parseTime : String → ℕ) (st : MDState) (now : ℕ)
    (resp : Except String (List ChankuraMarketTrade)) :
    MDState × List GatewayMarketTrade :=
  match resp with
  | .error _ => (st, [])
  | .ok trades => onTrades parseTime st trades now

/-- Successive processed trade batches, each with its processing-time
wall clock, threaded through onTrades; returns the emitted batches. -/
def processTradeBatches (parseTime : String → ℕ) :
    MDState → List (List ChankuraMarketTrade × ℕ) → List (List GatewayMarketTrade)
  | _, [] => []
  | st, (b, now) :: rest =>
    let r := onTrades parseTime st b now
    r.2 :: processTradeBatches parseTime r.1 rest

/-- Market-data state after processing a list of trade batches. -/
def mdStateAfter (parseTime : String → ℕ) :
    MDState → List (List ChankuraMarketTrade × ℕ) → MDState
  | st, [] => st
  | st, (b, now) :: rest => mdStateAfter parseTime (onTrades parseTime st b now).1 rest

/-- ChankuraMarketDataGateway.onMarketData: convert both sides of the
venue book and emit one canonical Market stamped with the response's
receipt time.  The handler reads no gateway state: each emission is a
function of its own response alone. -/
def onMarketData (book : Timestamped ChankuraOrderBook) : Market :=
  { bids := ConvertToMarketSides book.data.bids
    asks := ConvertToMarketSides book.data.asks
    time := book.time }

/-
Order-entry gateway (class ChankuraOrderEntryGateway, lines 242-365).
-/

/-- Models.OrderStatusUpdate: a partial-update record, every field
optional; unspecified fields default to absent. -/
structure OrderStatusUpdate where
  orderId : Option String := none
  exchangeId : Option String := none
  orderStatus : Option OrderStatus := none
  rejectMessage : Option String := none
  cancelRejected : Option Bool := none
  time : Option ℕ := none
  computationalLatency : Option ℤ := none
  lastPrice : Option ℚ := none
  lastQuantity : Option ℚ := none
  averagePrice : Option ℚ := none
  leavesQuantity : Option ℚ := none
  cumQuantity : Option ℚ := none
  quantity : Option ℚ := none
deriving DecidableEq

/-- Models.OrderStatusReport, restricted to the fields the gateway
reads: identity, economics, time-in-force/type, creation time, and the
venue-assigned exchange id (absent until the venue acknowledges). -/
structure OrderStatusReport where
  orderId : String
  exchangeId : Option String
  side : Side
  quantity : ℚ
  price : ℚ
  timeInForce : TimeInForce
  type : OrderType
  time : ℕ
deriving DecidableEq

/-- ChankuraOrderEntryGateway.convertToOrderRequest; the
encodeTimeInForce throw propagates (`Except.error`) before any request
exists. -/
def convertToOrderRequest (symbol : String) (order : OrderStatusReport) :
    Except String ChankuraNewOrderRequest := do
  let ot ← encodeTimeInForce order.timeInForce order.type
  .ok { volume := order.quantity
        price := order.price
        side := encodeSide order.side
        market := symbol
        ord_type := ot }

/-- ChankuraOrderEntryGateway.sendOrder: convert the report (which may
throw), issue the signed create-order call, and emit two updates — the
latency-only update synchronously after issuing the request, and the
resolution update when the promise resolves (hence strictly later):
Rejected with the venue message when `message` is present, else Working
with the venue-assigned id.  Returns the dispatched request and the
updates in emission order; `now` is the wall clock at submission
(`Utils.fastDiff(new Date(), order.time)`). -/
def sendOrder (symbol : String) (now : ℕ) (order : OrderStatusReport)
    (resp : Timestamped ChankuraNewOrderResponse) :
    Except String (ChankuraNewOrderRequest × List OrderStatusUpdate) := do
  let req ← convertToOrderRequest symbol order
  let latencyUpd : OrderStatusUpdate :=
    { orderId := some order.orderId
      computationalLatency := some ((now : ℤ) - (order.time : ℤ)) }
  let resolutionUpd : OrderStatusUpdate :=
    match resp.data.message with
    | some m =>
      { orderStatus := some .Rejected
        orderId := some order.orderId
        rejectMessage := some m
        time := some resp.time }
    | none =>
      { orderStatus := some .Working
        orderId := some order.orderId
        exchangeId := some resp.data.id
        time := some resp.time }
  .ok (req, [latencyUpd, resolutionUpd])

/-- ChankuraOrderEntryGateway.cancelOrder: unconditionally issue the
venue delete call with `{id: cancel.exchangeId}` (there is no guard on a
missing exchange id), and emit the latency-only update followed by the
resolution update (Rejected with cancelRejected when `message` is
present, else Cancelled).  The first component lists the venue calls
this invocation dispatches, in order. -/
def cancelOrder (now : ℕ) (cancel : OrderStatusReport)
    (resp : Timestamped ChankuraDeleteOrderResponse) :
    List ChankuraDeleteOrderRequest × List OrderStatusUpdate :=
  ([{ id := cancel.exchangeId }],
   [ { orderId := some cancel.orderId
       computationalLatency := some ((now : ℤ) - (cancel.time : ℤ)) },
     match resp.data.message with
     | some m =>
       { orderStatus := some .Rejected
         cancelRejected := some true
         orderId := some cancel.orderId
         rejectMessage := some m
         time := some resp.time }
     | none =>
       { orderId := some cancel.orderId
         time := some resp.time
         orderStatus := some .Cancelled } ])

/-- Mutable state of ChankuraOrderEntryGateway: the reconciliation
since-cursor (`private _since = moment.utc()`). -/
structure OEState where
  since : ℕ
deriving DecidableEq

/-- The consolidated update the reconciliation loop emits for one fill:
execution price/size from the my-trade, aggregate state from the order
detail fetched for `trade.id`. -/
def mkReconUpdate (trade : ChankuraMyTradesResponse)
    (r : ChankuraOrderStatusResponse) : OrderStatusUpdate :=
  { exchangeId := some trade.id
    lastPrice := some (parseDecimal trade.price)
    lastQuantity := some (parseDecimal trade.volume)
    orderStatus := some (getOrderStatus r)
    averagePrice := some (parseDecimal r.avg_price)
    leavesQuantity := some (parseDecimal r.remaining_volume)
    cumQuantity := some (parseDecimal r.executed_volume)
    quantity := some (parseDecimal r.volume) }

/-- ChankuraOrderEntryGateway.downloadOrderStatuses: issue the my-trades
poll with the current cursor, then — synchronously, before and
regardless of the response — set the cursor to the wall clock
(`this._since = moment.utc()` sits outside the then-handler).  When the
poll resolves, fetch each fill's order detail (`detail` oracle, keyed by
the id the source passes, `trade.id`) and emit one consolidated update
per fill; a rejected poll emits nothing.  Returns the successor state,
the my-trades request issued, and the emitted updates. -/
def downloadOrderStatuses (symbol : String) (st : OEState) (now : ℕ)
    (resp : Except String (List ChankuraMyTradesResponse))
    (detail : String → ChankuraOrderStatusResponse) :
    OEState × ChankuraMyTradesRequest × List OrderStatusUpdate :=
  ({ since := now },
   { market := symbol, timestamp := st.since },
   match resp with
   | .error _ => []
   | .ok trades => trades.map fun t => mkReconUpdate t (detail t.id))

/-
Concrete sample inputs used by counterexamples and witnesses.
-/

/-- A default-shaped order-detail response used as a constant oracle. -/
def sampleDetail : ChankuraOrderStatusResponse :=
  { id := "", side := "", price := "0", avg_price := "0", state := "wait",
    market := "", created_at := "", volume := "0", remaining_volume := "0",
    executed_volume := "0" }

/-- A supported report: limit order, good-till-cancelled. -/
def sampleGtcReport : OrderStatusReport :=
  { orderId := "ord-5", exchangeId := none, side := .Bid, quantity := 2,
    price := 100, timeInForce := .GTC, type := .Limit, time := 3 }

/-- An unsupported report for submission: limit order with IOC. -/
def sampleIocReport : OrderStatusReport :=
  { orderId := "ord-5b", exchangeId := none, side := .Bid, quantity := 2,
    price := 100, timeInForce := .IOC, type := .Limit, time := 3 }

/-- A second unsupported limit-IOC report, with a distinct identity. -/
def sampleIocReportB : OrderStatusReport :=
  { orderId := "ord-6", exchangeId := none, side := .Ask, quantity := 1,
    price := 50, timeInForce := .IOC, type := .Limit, time := 4 }

/-- A cancel report that lacks a venue-assigned exchange id. -/
def sampleNoIdReport : OrderStatusReport :=
  { orderId := "ord-8", exchangeId := none, side := .Bid, quantity := 1,
    price := 10, timeInForce := .GTC, type := .Limit, time := 2 }

/-- A placeholder digest function standing in for HMAC-SHA256. -/
def sampleHmac : String → String → String := fun _ _ => "0f9a"

/-- A concrete transport state for evaluating _postOnce. -/
def sampleHttpSt : HttpState :=
  { baseUrl := "https://chankura.example", apiKey := "mykey",
    secret := "s3cret", nonce := 7 }

/-
Helper lemmas shared by the claim theorems.
-/

theorem postOnce_snd (hmac : String → String → String) (st : HttpState)
    (method actionUrl query : String) :
    (postOnce hmac st method actionUrl query).2 = { st with nonce := st.nonce + 1 } := rfl

theorem postOnce_usedNonce (hmac : String → String → String) (st : HttpState)
    (method actionUrl query : String) :
    (postOnce hmac st method actionUrl query).1.usedNonce = st.nonce := rfl

/-- Full characterization of ChankuraHttp.post against the response
oracle: with k stale-nonce responses at the head of the oracle, post
returns the first non-stale response together with the k+1 calls it
dispatched — one per stale response plus the final accepted one — on
consecutive nonces starting at the current one, and leaves the nonce
advanced by k+1; it returns none when the oracle is exhausted while the
venue is still rejecting. -/
theorem post_spec (hmac : String → String → String) (method actionUrl query : String) :
    ∀ (rs : List VenueResponse) (st : HttpState),
      post hmac st method actionUrl query rs =
        (rs[(rs.takeWhile staleNonce).length]?).map (fun final =>
          ((List.range' st.nonce ((rs.takeWhile staleNonce).length + 1)).map
             (fun n => (postOnce hmac { st with nonce := n } method actionUrl query).1),
           final,
           { st with nonce := st.nonce + ((rs.takeWhile staleNonce).length + 1) }))
  | [], st => by simp [post]
  | r :: rs, st => by
    by_cases h : staleNonce r
    · have ih := post_spec hmac method actionUrl query rs { st with nonce := st.nonce + 1 }
      simp only [post, h, if_true, postOnce_snd, ih]
      cases hrs : rs[(rs.takeWhile staleNonce).length]? with
      | none => simp [hrs, List.takeWhile_cons, h]
      | some final =>
        simp only [hrs, List.takeWhile_cons, h, if_true, Option.map_some, List.length_cons,
          List.getElem?_cons_succ, List.range'_succ, List.map_cons]
        refine congrArg some ?_
        refine Prod.ext ?_ (Prod.ext rfl ?_)
        · simp
        · show (HttpState.mk _ _ _ _ : HttpState) = HttpState.mk _ _ _ _
          simp only [HttpState.mk.injEq, true_and]
          omega
    · simp [post, h, List.takeWhile_cons, List.range'_succ, postOnce_snd]

/-- The element at the index right after a takeWhile run fails the
predicate (when it exists). -/
theorem takeWhile_next_fails {α : Type} (p : α → Bool) :
    ∀ l : List α, ((l[(l.takeWhile p).length]?).map p).getD false = false
  | [] => rfl
  | x :: xs => by
    by_cases h : p x
    · simpa [List.takeWhile_cons, h] using takeWhile_next_fails p xs
    · simp [List.takeWhile_cons, h]

/-- Nonces and final state of a sequence of _postOnce attempts: the i-th
attempt uses the starting nonce plus i, and each attempt advances the
nonce by exactly one. -/
theorem runAttempts_spec (hmac : String → String → String) :
    ∀ (reqs : List (String × String × String)) (st : HttpState),
      (runAttempts hmac st reqs).1.map SignedCall.usedNonce = List.range' st.nonce reqs.length ∧
      (runAttempts hmac st reqs).2.nonce = st.nonce + reqs.length
  | [], st => by simp [runAttempts]
  | (m, a, q) :: rest, st => by
    have ih := runAttempts_spec hmac rest { st with nonce := st.nonce + 1 }
    refine ⟨?_, ?_⟩
    · simp only [runAttempts, postOnce_snd, List.map_cons, ih.1, postOnce_usedNonce,
        List.length_cons, List.range'_succ]
    · simp only [runAttempts, postOnce_snd, ih.2, List.length_cons]
      omega

/-- Mapping usedNonce over the calls produced at each nonce of a range
recovers the range itself. -/
theorem map_usedNonce_range' (hmac : String → String → String) (st : HttpState)
    (method actionUrl query : String) (s k : ℕ) :
    (List.range' s k).map
        (fun n => (postOnce hmac { st with nonce := n } method actionUrl query).1.usedNonce)
      = List.range' s k := by
  have h : (List.range' s k).map
        (fun n => (postOnce hmac { st with nonce := n } method actionUrl query).1.usedNonce)
      = (List.range' s k).map id := List.map_congr_left (fun n _ => rfl)
  rw [h, List.map_id]

/-- C1: for every signed call whose response carries the venue's stale
"Nonce is too small" message, the transport issues exactly one retried
call with the same logical request (same method, action URL and query)
and a strictly greater (next consecutive) nonce, and the retry loop
returns as soon as the venue answers without that message: with k
leading stale responses the transport dispatches exactly k+1 calls on
consecutive nonces and returns the first non-stale response, which by
construction does not carry the stale-nonce message. -/
theorem c1_retry_on_stale_nonce (hmac : String → String → String) (st : HttpState)
    (method actionUrl query : String) (rs : List VenueResponse) :
    post hmac st method actionUrl query rs =
      (rs[(rs.takeWhile staleNonce).length]?).map (fun final =>
        ((List.range' st.nonce ((rs.takeWhile staleNonce).length + 1)).map
           (fun n => (postOnce hmac { st with nonce := n } method actionUrl query).1),
         final,
         { st with nonce := st.nonce + ((rs.takeWhile staleNonce).length + 1) })) ∧
    ((rs[(rs.takeWhile staleNonce).length]?).map staleNonce).getD false = false :=
  ⟨post_spec hmac method actionUrl query rs st, takeWhile_next_fails staleNonce rs⟩

/-- C2: the Signed Transport's nonce is seeded from the wall clock at
construction, incremented exactly once per signed request attempt
(stale-nonce retries included, since every attempt is a _postOnce call),
never reset, so the nonces placed into successive signed calls are the
consecutive values from the seed — strictly increasing, no two attempts
observing the same nonce; the final conjunct shows the attempts made
inside the retry loop also use exactly one fresh consecutive nonce
each. -/
theorem c2_nonce_strictly_increasing (config : ChankuraConfig) (clock : ℕ)
    (hmac : String → String → String) (reqs : List (String × String × String)) :
    (mkChankuraHttp config clock).nonce = clock ∧
    (runAttempts hmac (mkChankuraHttp config clock) reqs).1.map SignedCall.usedNonce
      = List.range' clock reqs.length ∧
    (runAttempts hmac (mkChankuraHttp config clock) reqs).2.nonce = clock + reqs.length ∧
    List.Pairwise (· < ·)
      ((runAttempts hmac (mkChankuraHttp config clock) reqs).1.map SignedCall.usedNonce) ∧
    ∀ method actionUrl query rs,
      (post hmac (mkChankuraHttp config clock) method actionUrl query rs).map
          (fun x => x.1.map SignedCall.usedNonce)
        = (post hmac (mkChankuraHttp config clock) method actionUrl query rs).map
          (fun x => List.range' clock x.1.length) := by
  refine ⟨rfl, (runAttempts_spec hmac reqs _).1, (runAttempts_spec hmac reqs _).2, ?_, ?_⟩
  · rw [(runAttempts_spec hmac reqs _).1]
    exact List.pairwise_lt_range' clock reqs.length
  · intro method actionUrl query rs
    rw [post_spec hmac method actionUrl query rs (mkChankuraHttp config clock)]
    cases hrs : rs[(rs.takeWhile staleNonce).length]? with
    | none => rfl
    | some final =>
      simp only [Option.map_some', Option.some.injEq, List.map_map, List.length_map,
        List.length_range']
      exact map_usedNonce_range' hmac (mkChankuraHttp config clock) method actionUrl query _ _

/-- Once the trade cursor is set, every later batch is emitted with the
first-observed-batch flag false. -/
theorem warm_stays_false (parseTime : String → ℕ) :
    ∀ (bs : List (List ChankuraMarketTrade × ℕ)) (st : MDState), st.since.isSome = true →
      ((processTradeBatches parseTime st bs).all
        (fun evs => evs.all fun ev => !ev.isFirstObservedBatch)) = true
  | [], _, _ => rfl
  | (b, now) :: rest, st, h => by
    obtain ⟨s⟩ := st
    cases s with
    | none => simp at h
    | some v =>
      have ih := warm_stays_false parseTime rest { since := some now } rfl
      simp [processTradeBatches, onTrades, ih, List.all_map]

/-- After processing at least one batch the trade cursor is set. -/
theorem mdStateAfter_warm (parseTime : String → ℕ) :
    ∀ (bs : List (List ChankuraMarketTrade × ℕ)) (st : MDState)
      (b : List ChankuraMarketTrade) (now : ℕ),
      ((mdStateAfter parseTime st ((b, now) :: bs)).since.isSome) = true
  | [], _, _, _ => rfl
  | (b2, n2) :: rest, st, b, now => by
    simp only [mdStateAfter]
    exact mdStateAfter_warm parseTime rest _ b2 n2

/-- C9: starting from the constructor state (cursor unset), every trade
of the first processed batch is emitted with isFirstObservedBatch true,
every trade of every later batch with it false, and the Cold-to-Warm
transition is one-way: after any processed batch the cursor is set, from
any starting state, and no transition ever unsets it. -/
theorem c9_first_batch_flag (parseTime : String → ℕ) :
    (∀ (b : List ChankuraMarketTrade) (now : ℕ) rest,
      (((processTradeBatches parseTime MDState.init ((b, now) :: rest)).head?.getD []).all
        (fun ev => ev.isFirstObservedBatch)) = true) ∧
    (∀ bs,
      (((processTradeBatches parseTime MDState.init bs).drop 1).all
        (fun evs => evs.all fun ev => !ev.isFirstObservedBatch)) = true) ∧
    (∀ (st : MDState) (b : List ChankuraMarketTrade) (now : ℕ) bs,
      ((mdStateAfter parseTime st ((b, now) :: bs)).since.isSome) = true) := by
  refine ⟨?_, ?_, ?_⟩
  · intro b now rest
    simp [processTradeBatches, onTrades, MDState.init, List.all_map]
  · intro bs
    cases bs with
    | nil => rfl
    | cons p rest =>
      obtain ⟨b, now⟩ := p
      simp only [processTradeBatches, List.drop_succ_cons, List.drop_zero]
      exact warm_stays_false parseTime rest _ rfl
  · intro st b now bs
    exact mdStateAfter_warm parseTime bs st b now

/-- C3 (amended): the market-trades poller's cursor is updated only
after a successful response is processed — a failed poll leaves the
state untouched and emits nothing, so the next tick's timestamp query is
built from the same cursor — while the reconciliation loop's cursor
advances to the current wall clock when the tick issues its request,
regardless of whether the poll succeeds or fails. -/
theorem c3_cursor_update_policy :
    (∀ (parseTime : String → ℕ) (st : MDState) (now : ℕ) (err : String),
      marketTradesTick parseTime st now (Except.error err) = (st, [])) ∧
    (∀ (parseTime : String → ℕ) (st : MDState) (now : ℕ) (err : String) (nextNow : ℕ),
      marketTradesQuery (marketTradesTick parseTime st now (Except.error err)).1 nextNow
        = marketTradesQuery st nextNow) ∧
    (∀ (parseTime : String → ℕ) (st : MDState) trades (now : ℕ),
      (marketTradesTick parseTime st now (Except.ok trades)).1 = { since := some now }) ∧
    (∀ symbol (st : OEState) (now : ℕ) resp detail,
      (downloadOrderStatuses symbol st now resp detail).1 = { since := now }) :=
  ⟨fun _ _ _ _ => rfl, fun _ _ _ _ _ => rfl, fun _ _ _ _ => rfl, fun _ _ _ _ _ => rfl⟩

/-- C3 counterexample: a reconciliation tick whose my-trades poll fails
still moves the cursor — from 5 to the tick's wall clock 9 — while the
claim requires a failed poll to leave the cursor unchanged. -/
theorem c3_reconciliation_cursor_counterexample :
    ((downloadOrderStatuses "credoeth" { since := 5 } 9 (Except.error "ETIMEDOUT")
        (fun _ => sampleDetail)).1.since) ≠ 5 := by decide

/-- C4: a reconciliation tick polls my-trades with the current cursor
and, per returned fill, emits exactly one consolidated update taking
last price and last quantity from the fill, and status (mapped
wait to Working, cancel to Cancelled, done to Complete, anything else to
Other), average price, remaining, executed and total quantity from the
order detail fetched for the fill's id. -/
theorem c4_reconciliation_consolidated_update (symbol : String) (st : OEState) (now : ℕ)
    (trades : List ChankuraMyTradesResponse)
    (detail : String → ChankuraOrderStatusResponse) :
    (downloadOrderStatuses symbol st now (Except.ok trades) detail).2.1
      = { market := symbol, timestamp := st.since } ∧
    (∀ i : ℕ,
      ((downloadOrderStatuses symbol st now (Except.ok trades) detail).2.2)[i]?
        = (trades[i]?).map (fun t =>
            { exchangeId := some t.id
              lastPrice := some (parseDecimal t.price)
              lastQuantity := some (parseDecimal t.volume)
              orderStatus := some (getOrderStatus (detail t.id))
              averagePrice := some (parseDecimal (detail t.id).avg_price)
              leavesQuantity := some (parseDecimal (detail t.id).remaining_volume)
              cumQuantity := some (parseDecimal (detail t.id).executed_volume)
              quantity := some (parseDecimal (detail t.id).volume) })) ∧
    (∀ r : ChankuraOrderStatusResponse, getOrderStatus r =
      if r.state = "wait" then OrderStatus.Working
      else if r.state = "cancel" then OrderStatus.Cancelled
      else if r.state = "done" then OrderStatus.Complete
      else OrderStatus.Other) := by
  refine ⟨rfl, ?_, ?_⟩
  · intro i
    simp [downloadOrderStatuses, mkReconUpdate, List.getElem?_map]
  · intro r
    by_cases h1 : r.state = "wait"
    · simp [getOrderStatus, h1]
    · by_cases h2 : r.state = "cancel"
      · simp [getOrderStatus, h1, h2]
      · by_cases h3 : r.state = "done"
        · simp [getOrderStatus, h1, h2, h3]
        · simp [getOrderStatus, h1, h2, h3]

theorem parseDecimal_100_5 : parseDecimal "100.5" = 201 / 2 := by
  show (100 : ℚ) + 5 / 10 ^ 1 = 201 / 2
  norm_num

theorem parseDecimal_2 : parseDecimal "2" = 2 := by
  show (2 : ℚ) + 0 / 10 ^ 0 = 2
  norm_num

theorem parseDecimal_101_0 : parseDecimal "101.0" = 101 := by
  show (101 : ℚ) + 0 / 10 ^ 1 = 101
  norm_num

theorem parseDecimal_1 : parseDecimal "1" = 1 := by
  show (1 : ℚ) + 0 / 10 ^ 0 = 1
  norm_num

/-- C10: each emitted canonical book carries the response's receipt
time, has exactly one level per venue level with price and size parsed
from the venue's decimal strings, in the venue-returned order on each
side; each emission is a function of its own response alone (the i-th
emitted book is the conversion of the i-th response, never merged with
a previous snapshot); and the concrete scenario response yields one bid
level (100.5, 2) and one ask level (101.0, 1). -/
theorem c10_order_book_conversion (book : Timestamped ChankuraOrderBook)
    (books : List (Timestamped ChankuraOrderBook)) :
    (onMarketData book).time = book.time ∧
    (∀ i : ℕ, (onMarketData book).bids[i]?
        = (book.data.bids[i]?).map (fun l =>
            { price := parseDecimal l.price, size := parseDecimal l.volume })) ∧
    (∀ i : ℕ, (onMarketData book).asks[i]?
        = (book.data.asks[i]?).map (fun l =>
            { price := parseDecimal l.price, size := parseDecimal l.volume })) ∧
    (∀ i : ℕ, (books.map onMarketData)[i]? = (books[i]?).map onMarketData) ∧
    onMarketData { data := { bids := [{ price := "100.5", volume := "2" }],
                             asks := [{ price := "101.0", volume := "1" }] }, time := 42 }
      = { bids := [{ price := 201 / 2, size := 2 }],
          asks := [{ price := 101, size := 1 }], time := 42 } := by
  refine ⟨rfl, ?_, ?_, ?_, ?_⟩
  · intro i
    rw [show (onMarketData book).bids = book.data.bids.map ConvertToMarketSide from rfl,
      List.getElem?_map]
    rfl
  · intro i
    rw [show (onMarketData book).asks = book.data.asks.map ConvertToMarketSide from rfl,
      List.getElem?_map]
    rfl
  · intro i
    simp [List.getElem?_map]
  · simp [onMarketData, ConvertToMarketSides, ConvertToMarketSide,
      parseDecimal_100_5, parseDecimal_2, parseDecimal_101_0, parseDecimal_1]

/-- Whenever the report's combination is supported by encodeTimeInForce
(everything except a Limit order with IOC), sendOrder resolves to the
converted request and exactly two updates in emission order: the
latency-only update first, then the single resolution update — Rejected
with the venue's message when the response carries one, else Working
with the venue-assigned id. -/
theorem sendOrder_ok (symbol : String) (now : ℕ) (order : OrderStatusReport)
    (resp : Timestamped ChankuraNewOrderResponse)
    (h : ¬(order.type = OrderType.Limit ∧ order.timeInForce = TimeInForce.IOC)) :
    ∃ req, sendOrder symbol now order resp =
      Except.ok (req,
        [ { orderId := some order.orderId,
            computationalLatency := some ((now : ℤ) - (order.time : ℤ)) },
          match resp.data.message with
          | some m =>
            { orderStatus := some OrderStatus.Rejected, orderId := some order.orderId,
              rejectMessage := some m, time := some resp.time }
          | none =>
            { orderStatus := some OrderStatus.Working, orderId := some order.orderId,
              exchangeId := some resp.data.id, time := some resp.time } ]) := by
  obtain ⟨oid, eid, sd, q, p, tif, ty, t⟩ := order
  obtain ⟨⟨rid, rmsg⟩, rtime⟩ := resp
  cases ty with
  | Market =>
    cases rmsg with
    | none => exact ⟨_, rfl⟩
    | some m => exact ⟨_, rfl⟩
  | Limit =>
    cases tif with
    | IOC => exact absurd ⟨rfl, rfl⟩ h
    | FOK =>
      cases rmsg with
      | none => exact ⟨_, rfl⟩
      | some m => exact ⟨_, rfl⟩
    | GTC =>
      cases rmsg with
      | none => exact ⟨_, rfl⟩
      | some m => exact ⟨_, rfl⟩

/-- C5 (amended): for every submitted order whose time-in-force and type
combination encodeTimeInForce supports (any Market order, and Limit
orders with FOK or GTC), submit emits the latency-only update — orderId
and computational latency, no status, no exchange id — strictly before
the single resolution update for the same order: Rejected carrying the
venue's message and no exchange id when the response carries a message
field, else Working carrying the venue-assigned exchange order id.  (A
Limit order with IOC makes convertToOrderRequest throw before anything
is emitted: see the counterexample.) -/
theorem c5_submit_update_ordering (symbol : String) (now : ℕ) (order : OrderStatusReport)
    (resp : Timestamped ChankuraNewOrderResponse)
    (h : ¬(order.type = OrderType.Limit ∧ order.timeInForce = TimeInForce.IOC)) :
    ∃ req, sendOrder symbol now order resp =
      Except.ok (req,
        [ { orderId := some order.orderId,
            computationalLatency := some ((now : ℤ) - (order.time : ℤ)) },
          match resp.data.message with
          | some m =>
            { orderStatus := some OrderStatus.Rejected, orderId := some order.orderId,
              rejectMessage := some m, time := some resp.time }
          | none =>
            { orderStatus := some OrderStatus.Working, orderId := some order.orderId,
              exchangeId := some resp.data.id, time := some resp.time } ]) :=
  sendOrder_ok symbol now order resp h

/-- C5 witness: the theorem applied to a concrete GTC limit order and a
message-free venue response. -/
theorem c5_submit_update_ordering_witness :
    (¬(sampleGtcReport.type = OrderType.Limit ∧ sampleGtcReport.timeInForce = TimeInForce.IOC)) ∧
    ∃ req, sendOrder "credoeth" 10 sampleGtcReport { data := { id := "E7", message := none }, time := 11 } =
      Except.ok (req,
        [ { orderId := some "ord-5",
            computationalLatency := some ((10 : ℤ) - ((3 : ℕ) : ℤ)) },
          { orderStatus := some OrderStatus.Working, orderId := some "ord-5",
            exchangeId := some "E7", time := some 11 } ]) :=
  ⟨by decide,
   c5_submit_update_ordering "credoeth" 10 sampleGtcReport
     { data := { id := "E7", message := none }, time := 11 } (by decide)⟩

/-- C5 counterexample: submitting a Limit order with IOC throws inside
convertToOrderRequest, so no latency-only update (and no update at all)
is emitted for that submitted order, contradicting the claim's "for
every submitted order". -/
theorem c5_submit_counterexample :
    sendOrder "credoeth" 10 sampleIocReport { data := { id := "E1", message := none }, time := 11 }
      = Except.error "unsupported tif IOC and order type Limit" := rfl

/-- C6 (amended): order submission never throws and surfaces a venue
rejection as a Rejected OrderStatusUpdate for every supported report
(anything except a Limit order with IOC, where encodeTimeInForce throws
before any update is emitted — see the counterexample), and cancel never
throws for any report whatsoever — the cancel conjuncts quantify over an
arbitrary report, Limit-with-IOC included: it always emits exactly two
updates, the second a Rejected update with the cancelRejected flag
whenever the venue response carries a message. -/
theorem c6_failures_surfaced_as_data (symbol : String) (now : ℕ) (order : OrderStatusReport)
    (resp : Timestamped ChankuraNewOrderResponse)
    (h : ¬(order.type = OrderType.Limit ∧ order.timeInForce = TimeInForce.IOC)) :
    (∃ x, sendOrder symbol now order resp = Except.ok x) ∧
    (∀ m, resp.data.message = some m → ∀ x, sendOrder symbol now order resp = Except.ok x →
      x.2[1]? = some { orderStatus := some OrderStatus.Rejected, orderId := some order.orderId,
                       rejectMessage := some m, time := some resp.time }) ∧
    (∀ (nowC : ℕ) (cancel : OrderStatusReport)
       (respC : Timestamped ChankuraDeleteOrderResponse),
      (cancelOrder nowC cancel respC).2.length = 2 ∧
      (∀ m, respC.data.message = some m →
        ((cancelOrder nowC cancel respC).2)[1]?
          = some { orderStatus := some OrderStatus.Rejected, cancelRejected := some true,
                   orderId := some cancel.orderId, rejectMessage := some m,
                   time := some respC.time })) := by
  obtain ⟨req, hr⟩ := sendOrder_ok symbol now order resp h
  refine ⟨⟨_, hr⟩, ?_, ?_⟩
  · intro m hm x hx
    rw [hr] at hx
    have hx2 := (Except.ok.injEq _ _).mp hx.symm
    subst hx2
    simp [hm]
  · intro nowC cancel respC
    refine ⟨rfl, ?_⟩
    intro m hm
    simp [cancelOrder, hm]

/-- C6 counterexample: a Limit order with IOC time-in-force makes submit
throw (the encodeTimeInForce error) instead of emitting any
OrderStatusUpdate, contradicting "no input OrderStatusReport causes
submit or cancel to throw instead of emitting an update". -/
theorem c6_throw_counterexample :
    sendOrder "credoeth" 12 sampleIocReportB
        { data := { id := "E2", message := some "insufficient funds" }, time := 13 }
      = Except.error "unsupported tif IOC and order type Limit" := rfl

/-- C6 witness: the theorem applied to a concrete supported report with
a rejecting create-order response; the cancel conjunct it yields is
unconditional in the report, so it covers Limit-with-IOC cancels too. -/
theorem c6_failures_surfaced_as_data_witness :
    (¬(sampleGtcReport.type = OrderType.Limit ∧ sampleGtcReport.timeInForce = TimeInForce.IOC)) ∧
    ((∃ x, sendOrder "credoeth" 10 sampleGtcReport
        { data := { id := "", message := some "insufficient funds" }, time := 11 } = Except.ok x) ∧
    (∀ m, (some "insufficient funds" : Option String) = some m →
      ∀ x, sendOrder "credoeth" 10 sampleGtcReport
        { data := { id := "", message := some "insufficient funds" }, time := 11 } = Except.ok x →
      x.2[1]? = some { orderStatus := some OrderStatus.Rejected, orderId := some "ord-5",
                       rejectMessage := some m, time := some 11 }) ∧
    (∀ (nowC : ℕ) (cancel : OrderStatusReport)
       (respC : Timestamped ChankuraDeleteOrderResponse),
      (cancelOrder nowC cancel respC).2.length = 2 ∧
      (∀ m, respC.data.message = some m →
        ((cancelOrder nowC cancel respC).2)[1]?
          = some { orderStatus := some OrderStatus.Rejected, cancelRejected := some true,
                   orderId := some cancel.orderId, rejectMessage := some m,
                   time := some respC.time }))) :=
  ⟨by decide,
   c6_failures_surfaced_as_data "credoeth" 10 sampleGtcReport
     { data := { id := "", message := some "insufficient funds" }, time := 11 } (by decide)⟩

/-- C7: evaluation of _postOnce at a concrete signed request.  The
signature payload the code feeds to HMAC-SHA256 is
`METHOD|api/v2<path>|access_key=<key>&tonce=<nonce>&<querystring>` —
missing the leading slash of the claim's `/api/v2<path>` — and the
digest is appended to the dispatched URL as the literal characters
`&signature<digest>`, with no `=`, so the URL contains no
`signature=<digest>` query parameter. -/
theorem c7_signature_construction :
    (postOnce sampleHmac sampleHttpSt "POST" "orders.json" "").1.payload
        = "POST|api/v2orders.json|access_key=mykey&tonce=7&" ∧
    containsSub ((postOnce sampleHmac sampleHttpSt "POST" "orders.json" "").1.payload).data
        ("|/api/v2").data = false ∧
    (postOnce sampleHmac sampleHttpSt "POST" "orders.json" "").1.url
        = "https://chankura.example/orders.json?access_key=mykey&tonce=7&&signature0f9a" ∧
    containsSub ((postOnce sampleHmac sampleHttpSt "POST" "orders.json" "").1.url).data
        ("signature=").data = false :=
  ⟨rfl, by decide, rfl, by decide⟩

/-- C8 (amended): cancelOrder always issues exactly one venue delete
call carrying the report's (possibly absent) exchange id — an order
lacking a venue-assigned id is not special-cased and the venue is still
called — and always emits its two updates. -/
theorem c8_cancel_always_calls_venue (now : ℕ) (cancel : OrderStatusReport)
    (resp : Timestamped ChankuraDeleteOrderResponse) :
    (cancelOrder now cancel resp).1 = [{ id := cancel.exchangeId }] ∧
    (cancelOrder now cancel resp).2.length = 2 :=
  ⟨rfl, rfl⟩

/-- C8 counterexample: cancelling a report with no exchange id still
dispatches a venue delete call (the call list is non-empty),
contradicting "never calls the venue". -/
theorem c8_missing_exchange_id_counterexample :
    (cancelOrder 6 sampleNoIdReport { data := { message := none }, time := 7 }).1 ≠ [] := by
  decide

end Tribeca
